import Mathlib

/-!
Shallow embedding of the asteroids mini-game (`src/main.rs`).

Scalars (`f32`/`f64` in the source) are modelled as rationals `ℚ`; the
ambient macroquad functions (`screen_width`, `screen_height`, `get_time`,
`is_key_pressed`, `is_key_down`, and the random draws of
`Asteroid::default`) are modelled as explicit parameters: a fixed `Env`
for the screen dimensions and a per-frame `FrameInput` carrying the clock
reading, the key states and the asteroid the RNG would produce if this
frame spawns one.  Rational division is total (`x / 0 = 0`), so the
float-specific behaviour of `speed /= DECELERATION * elapsed` at
`elapsed = 0` (infinities / NaN in `f32`) is outside this model.
-/

namespace Asteroids

/-- Constant `Ship::SHIP_WIDTH`. -/
def SHIP_WIDTH : ℚ := 25

/-- Constant `Ship::SHIP_HEIGHT`. -/
def SHIP_HEIGHT : ℚ := 50

/-- Constant `Ship::SHIP_OFFSET`. -/
def SHIP_OFFSET : ℚ := 30

/-- Constant `ACCELERATION` in `Ship::update`. -/
def ACCELERATION : ℚ := 200

/-- Constant `VERTICAL_ACCELERATION` in `Ship::update`. -/
def VERTICAL_ACCELERATION : ℚ := 50

/-- Constant `DECELERATION` in `Ship::update`. -/
def DECELERATION : ℚ := 180

/-- Constant `Asteroid::MIN_RADIUS`. -/
def MIN_RADIUS : ℚ := 25

/-- Constant `Asteroid::MAX_RADIUS`. -/
def MAX_RADIUS : ℚ := 100

/-- Constant `Asteroid::MAX_SPEED`. -/
def MAX_SPEED : ℚ := 200

/-- The ambient window: `screen_width()` and `screen_height()`. -/
structure Env where
  screenWidth : ℚ
  screenHeight : ℚ
deriving DecidableEq

/-- The `struct Ship`: horizontal position, horizontal speed, vertical speed. -/
structure Ship where
  position : ℚ
  speed : ℚ
  vertical_speed : ℚ
deriving DecidableEq

/-- Constructor `Ship::default()`: centered horizontally, zero speed, vertical speed 100. -/
def Ship.default (env : Env) : Ship :=
  { position := env.screenWidth / 2, speed := 0, vertical_speed := 100 }

/-- Rust `f32::clamp` as used in `Ship::update` (the source always calls it with
`lo ≤ hi`, where Rust's clamp agrees with this formula). -/
def clampQ (lo hi x : ℚ) : ℚ := max lo (min x hi)

/-- Method `Ship::update(elapsed_time)`: divide speed by `DECELERATION * elapsed`,
apply held-key accelerations, move by the (per-frame displacement) speed,
clamp the position into the window, add vertical acceleration.

Faithful only for `elapsed ≠ 0`: at `elapsed = 0` the source's unguarded
`speed /= DECELERATION * elapsed_time` divides by zero, which in `f32`
yields an infinity (for nonzero speed) or NaN (for `0.0 / 0.0`, the default
ship's case) that `f32::clamp` propagates, whereas rational division is
total with `x / 0 = 0`.  Position-bound theorems below are therefore stated
only for positive elapsed deltas; no theorem relies on the model's value at
`elapsed = 0`. -/
def Ship.update (env : Env) (aDown dDown : Bool) (elapsed : ℚ) (s : Ship) : Ship :=
  let speed0 := s.speed / (DECELERATION * elapsed)
  let speed1 := if aDown then speed0 - ACCELERATION * elapsed else speed0
  let speed2 := if dDown then speed1 + ACCELERATION * elapsed else speed1
  let pos := clampQ (SHIP_WIDTH / 2) (env.screenWidth - SHIP_WIDTH / 2)
    (s.position + speed2)
  { position := pos, speed := speed2,
    vertical_speed := s.vertical_speed + VERTICAL_ACCELERATION * elapsed }

/-- Method `Ship::is_collapse(point, radius)`.  The source compares
`(point - ship_center).length() < radius + ship_radius`; since a Euclidean
length is nonnegative, that holds iff the combined radius is positive and
the squared distance is below its square, which is the square-root-free
form used here (the equivalence with the square-root form over `ℝ` is proved
below). -/
def Ship.is_collapse (env : Env) (s : Ship) (px py radius : ℚ) : Bool :=
  let ship_radius := (SHIP_WIDTH + SHIP_HEIGHT) / 4
  let cx := s.position
  let cy := env.screenHeight - SHIP_OFFSET
  decide (0 < radius + ship_radius) &&
    decide ((px - cx) ^ 2 + (py - cy) ^ 2 < (radius + ship_radius) ^ 2)

/-- Accessor `Ship::vertical_speed()`. -/
def Ship.verticalSpeed (s : Ship) : ℚ := s.vertical_speed

/-- The `struct Asteroid`: position, speed (both 2D), radius. -/
structure Asteroid where
  x : ℚ
  y : ℚ
  sx : ℚ
  sy : ℚ
  radius : ℚ
deriving DecidableEq

/-- Method `Asteroid::out_of_bounds()`: more than `3 * MAX_RADIUS` past the left or
right edge, or more than `3 * MAX_RADIUS` below the bottom edge. -/
def Asteroid.out_of_bounds (env : Env) (a : Asteroid) : Bool :=
  let left := -3 * MAX_RADIUS
  let right := env.screenWidth + 3 * MAX_RADIUS
  let bottom := env.screenHeight + 3 * MAX_RADIUS
  decide (a.x < left) || decide (a.x > right) || decide (a.y > bottom)

/-- Method `Asteroid::update(elapsed_time, ship_speed)`: integrate the own velocity,
then add the ship's vertical speed to `y`. -/
def Asteroid.update (elapsed shipSpeed : ℚ) (a : Asteroid) : Asteroid :=
  { a with
    x := a.x + a.sx * elapsed,
    y := a.y + a.sy * elapsed + shipSpeed * elapsed }

/-- The `struct Game`: the running round. -/
structure Game where
  start_time : ℚ
  last_update : ℚ
  ship : Ship
  asteroid_timer : ℚ
  asteroids : List Asteroid
deriving DecidableEq

/-- Constructor `Game::default()` at clock reading `time`. -/
def Game.default (env : Env) (time : ℚ) : Game :=
  { start_time := time, last_update := time, ship := Ship.default env,
    asteroid_timer := 0, asteroids := [] }

/-- One frame's ambient inputs: the clock reading `get_time()`, the polled
key states, and the asteroid `Asteroid::default()` would draw from the RNG. -/
structure FrameInput where
  now : ℚ
  escapePressed : Bool
  aDown : Bool
  dDown : Bool
  newAsteroid : Asteroid
deriving DecidableEq

/-- The spawn-timer step of `Game::update`: add the elapsed time to
`asteroid_timer`; if the accumulated value strictly exceeds `0.5`, reset
the timer to `0` and append one freshly drawn asteroid. -/
def spawnStep (newA : Asteroid) (elapsed timer : ℚ) (asts : List Asteroid) :
    ℚ × List Asteroid :=
  if timer + elapsed > 1/2 then (0, asts ++ [newA]) else (timer + elapsed, asts)

/-- The `retain` step of `Game::update`: drop every out-of-bounds asteroid. -/
def cullStep (env : Env) (asts : List Asteroid) : List Asteroid :=
  asts.filter (fun a => !a.out_of_bounds env)

/-- The `for asteroid in &mut self.asteroids` loop of `Game::update`: update
each asteroid in order, and stop at the first one that collides with the
ship.  Returns the asteroid list as the loop leaves it (on a collision the
suffix after the collider is untouched) and whether a collision happened. -/
def updateAsteroids (env : Env) (elapsed vs : ℚ) (ship : Ship) :
    List Asteroid → List Asteroid × Bool
  | [] => ([], false)
  | a :: rest =>
    let a2 := a.update elapsed vs
    if ship.is_collapse env a2.x a2.y a2.radius then (a2 :: rest, true)
    else
      let r := updateAsteroids env elapsed vs ship rest
      (a2 :: r.1, r.2)

/-- Method `Game::update()`.  Returns the state as the method leaves `self`,
paired with `Some` survived time when the round ended (Escape or
collision) and `none` when it continues.  The single `now` models the
frame's `get_time()` reading. -/
def Game.update (env : Env) (inp : FrameInput) (g : Game) : Game × Option ℚ :=
  if inp.escapePressed then (g, some (inp.now - g.start_time))
  else
    let elapsed := inp.now - g.last_update
    let spawned := spawnStep inp.newAsteroid elapsed g.asteroid_timer g.asteroids
    let kept := cullStep env spawned.2
    let looped := updateAsteroids env elapsed g.ship.vertical_speed g.ship kept
    if looped.2 then
      ({ g with asteroid_timer := spawned.1, asteroids := looped.1 },
        some (inp.now - g.start_time))
    else
      let ship2 := g.ship.update env inp.aDown inp.dDown elapsed
      ({ g with asteroid_timer := spawned.1, asteroids := looped.1, ship := ship2, last_update := inp.now }, none)

/-- The `struct State`: the application state. -/
structure State where
  best_time : ℚ
  game : Option Game
deriving DecidableEq

/-- Constructor `State::default()`. -/
def State.default : State := { best_time := 0, game := none }

/-- The record-folding branch of `State::update`: when a round reports
`new_time`, the best time is replaced only when strictly beaten. -/
def foldBest (best new_time : ℚ) : ℚ := if new_time > best then new_time else best

/-- The `State::update` transition on a finished round: drop the game,
fold the reported time into the record. -/
def State.onRoundEnd (s : State) (t : ℚ) : State :=
  { best_time := foldBest s.best_time t, game := none }

/-- Best time after a sequence of rounds reporting the given times, from a
fresh `State`. -/
def bestAfter (ts : List ℚ) : ℚ := ts.foldl foldBest State.default.best_time


/-- A sequence of `Ship::update` calls, one entry per frame:
`(A held, D held, elapsed)`. -/
def Ship.runUpdates (env : Env) : List (Bool × Bool × ℚ) → Ship → Ship
  | [], s => s
  | st :: rest, s => Ship.runUpdates env rest (Ship.update env st.1 st.2.1 st.2.2 s)

/-- Modelled from the spec's claimed ordering (spec overview: the round
"advances Ship then Obstacles"): identical to `Game.update` except that the
ship is advanced before the asteroid loop, so the asteroids see the ship's
already-increased vertical speed and collisions are checked against the
advanced ship.  Used only to compare against the order the code implements. -/
def Game.updateShipFirst (env : Env) (inp : FrameInput) (g : Game) : Game × Option ℚ :=
  if inp.escapePressed then (g, some (inp.now - g.start_time))
  else
    let elapsed := inp.now - g.last_update
    let spawned := spawnStep inp.newAsteroid elapsed g.asteroid_timer g.asteroids
    let kept := cullStep env spawned.2
    let ship2 := g.ship.update env inp.aDown inp.dDown elapsed
    let looped := updateAsteroids env elapsed ship2.vertical_speed ship2 kept
    if looped.2 then
      ({ g with asteroid_timer := spawned.1, asteroids := looped.1, ship := ship2 },
        some (inp.now - g.start_time))
    else
      ({ g with asteroid_timer := spawned.1, asteroids := looped.1, ship := ship2, last_update := inp.now }, none)

/-- C4: for every strictly positive elapsed delta and every starting state (in
a window at least as wide as the ship), the ship's horizontal position right
after `Ship::update` lies within `[SHIP_WIDTH/2, screen_width - SHIP_WIDTH/2]`.

The claim says "every non-negative elapsed delta", but at `elapsed = 0` the
source's deceleration step computes `0.0 / 0.0 = NaN` for a ship with zero
horizontal speed (`Ship::default`, the state on a round's first tick where
`start_time == last_update_time`), and Rust's `f32::clamp` returns NaN for a
NaN input, so the program's position leaves the interval there — a code bug
against the spec's stated invariant and its §7 guard requirement.  The
hypothesis `0 < e` restricts the statement to the inputs on which the
rational model is faithful (see the comment on `Ship.update`). -/
theorem ship_position_in_window (env : Env) (a d : Bool) (e : ℚ) (s : Ship)
    (hw : SHIP_WIDTH ≤ env.screenWidth) (_he : 0 < e) :
    SHIP_WIDTH / 2 ≤ (Ship.update env a d e s).position ∧
      (Ship.update env a d e s).position ≤ env.screenWidth - SHIP_WIDTH / 2 := by
  have hlohi : SHIP_WIDTH / 2 ≤ env.screenWidth - SHIP_WIDTH / 2 := by
    simp only [SHIP_WIDTH] at hw ⊢
    linarith
  constructor
  · simp only [Ship.update, clampQ]
    exact le_max_left _ _
  · simp only [Ship.update, clampQ]
    exact max_le hlohi (min_le_right _ _)

/-- Witness for `ship_position_in_window` at a concrete window, delta and ship. -/
theorem ship_position_in_window_witness :
    SHIP_WIDTH ≤ (Env.mk 800 600).screenWidth ∧ (0:ℚ) < 1 ∧
      (SHIP_WIDTH / 2 ≤ (Ship.update ⟨800, 600⟩ false false 1 (Ship.default ⟨800, 600⟩)).position ∧
        (Ship.update ⟨800, 600⟩ false false 1 (Ship.default ⟨800, 600⟩)).position ≤
          (Env.mk 800 600).screenWidth - SHIP_WIDTH / 2) :=
  ⟨by decide, by decide,
    ship_position_in_window ⟨800, 600⟩ false false 1 (Ship.default ⟨800, 600⟩)
      (by decide) (by decide)⟩

/-- C5: the ship's `vertical_speed` is monotonically non-decreasing across any
sequence of `Ship::update` calls with non-negative elapsed deltas (it is never
reset by an update). -/
theorem vertical_speed_monotone (env : Env) (steps : List (Bool × Bool × ℚ)) (s : Ship)
    (h : ∀ st ∈ steps, 0 ≤ st.2.2) :
    s.vertical_speed ≤ (Ship.runUpdates env steps s).vertical_speed := by
  induction steps generalizing s with
  | nil => exact le_refl _
  | cons st rest ih =>
    have h1 : 0 ≤ st.2.2 := h st (List.mem_cons_self _ _)
    have h2 : ∀ x ∈ rest, 0 ≤ x.2.2 := fun x hx => h x (List.mem_cons_of_mem _ hx)
    have hstep : s.vertical_speed ≤ (Ship.update env st.1 st.2.1 st.2.2 s).vertical_speed := by
      simp only [Ship.update, VERTICAL_ACCELERATION]
      have : (0:ℚ) ≤ 50 * st.2.2 := mul_nonneg (by norm_num) h1
      linarith
    exact le_trans hstep (ih _ h2)

/-- Witness for `vertical_speed_monotone` on a concrete two-frame run. -/
theorem vertical_speed_monotone_witness :
    (Ship.default ⟨800, 600⟩).vertical_speed ≤
      (Ship.runUpdates ⟨800, 600⟩ [(true, false, 1), (false, true, 2)]
        (Ship.default ⟨800, 600⟩)).vertical_speed :=
  vertical_speed_monotone ⟨800, 600⟩ _ _ (by decide)

/-- C7: `Asteroid::out_of_bounds` holds exactly when `x` is more than
`3 * MAX_RADIUS = 300` past the left or right screen edge or `y` is more than
`300` below the bottom edge (no top-edge check); in particular it is true at
`x = screen_width + 4 * MAX_RADIUS` and false at the screen center. -/
theorem out_of_bounds_characterisation :
    (∀ (env : Env) (a : Asteroid), a.out_of_bounds env = true ↔
      (a.x < -300 ∨ a.x > env.screenWidth + 300 ∨ a.y > env.screenHeight + 300)) ∧
    (∀ (env : Env) (a : Asteroid), a.x = env.screenWidth + 4 * MAX_RADIUS →
      a.out_of_bounds env = true) ∧
    (∀ env : Env, 0 ≤ env.screenWidth → 0 ≤ env.screenHeight →
      ∀ sx sy r : ℚ,
        Asteroid.out_of_bounds env ⟨env.screenWidth / 2, env.screenHeight / 2, sx, sy, r⟩ = false) := by
  refine ⟨?_, ?_, ?_⟩
  · intro env a
    simp only [Asteroid.out_of_bounds, MAX_RADIUS, Bool.or_eq_true, decide_eq_true_eq]
    norm_num [or_assoc]
  · intro env a hx
    simp only [Asteroid.out_of_bounds, MAX_RADIUS, Bool.or_eq_true, decide_eq_true_eq, hx]
    left; right
    linarith
  · intro env hw hh sx sy r
    simp only [Asteroid.out_of_bounds, MAX_RADIUS, Bool.or_eq_false_iff,
      decide_eq_false_iff_not, not_lt, gt_iff_lt]
    refine ⟨⟨by linarith, by linarith⟩, by linarith⟩

/-- Witness for `out_of_bounds_characterisation` at a concrete window. -/
theorem out_of_bounds_characterisation_witness :
    Asteroid.out_of_bounds ⟨800, 600⟩ ⟨800 + 4 * MAX_RADIUS, 0, 0, 0, 25⟩ = true ∧
      Asteroid.out_of_bounds ⟨800, 600⟩ ⟨800 / 2, 600 / 2, 0, 0, 25⟩ = false :=
  ⟨out_of_bounds_characterisation.2.1 ⟨800, 600⟩ _ rfl,
    out_of_bounds_characterisation.2.2 ⟨800, 600⟩ (by decide) (by decide) 0 0 25⟩

/-- C8: the record starts at zero, a reported round time replaces it only when
strictly larger, so it is the running maximum of all reported times and is
monotonically non-decreasing; on `[3, 1, 5, 2]` the observed sequence is
`[3, 3, 5, 5]`. -/
theorem best_time_is_running_max :
    State.default.best_time = 0 ∧
    (∀ b t : ℚ, foldBest b t = max b t) ∧
    (∀ b t : ℚ, b ≤ foldBest b t) ∧
    (∀ (s : State) (t : ℚ), (s.onRoundEnd t).best_time = max s.best_time t) ∧
    (∀ ts : List ℚ, bestAfter ts = ts.foldl max 0) ∧
    (List.scanl foldBest (0:ℚ) [3, 1, 5, 2]).tail = [3, 3, 5, 5] := by
  have hmax : ∀ b t : ℚ, foldBest b t = max b t := by
    intro b t
    unfold foldBest
    rcases le_or_lt t b with h | h
    · rw [if_neg (not_lt.mpr h), max_eq_left h]
    · rw [if_pos h, max_eq_right h.le]
  refine ⟨rfl, hmax, ?_, ?_, ?_, by decide⟩
  · intro b t
    rw [hmax]
    exact le_max_left _ _
  · intro s t
    simp only [State.onRoundEnd, hmax]
  · intro ts
    rw [bestAfter, show foldBest = max from funext fun b => funext fun t => hmax b t]
    rfl

/-- The asteroid loop preserves the number of asteroids, collision or not. -/
theorem updateAsteroids_length (env : Env) (e vs : ℚ) (ship : Ship) (asts : List Asteroid) :
    (updateAsteroids env e vs ship asts).1.length = asts.length := by
  induction asts with
  | nil => rfl
  | cons a rest ih =>
    simp only [updateAsteroids]
    by_cases h : ship.is_collapse env (a.update e vs).x (a.update e vs).y (a.update e vs).radius = true
    · simp [h]
    · simp [h, ih]

/-- The early-exit asteroid loop reports a collision exactly when some fully
integrated asteroid of this frame intersects the ship. -/
theorem updateAsteroids_collided (env : Env) (e vs : ℚ) (ship : Ship) (asts : List Asteroid) :
    (updateAsteroids env e vs ship asts).2 =
      (asts.map (Asteroid.update e vs)).any
        (fun a => ship.is_collapse env a.x a.y a.radius) := by
  induction asts with
  | nil => rfl
  | cons a rest ih =>
    simp only [updateAsteroids, List.map_cons, List.any_cons]
    by_cases h : ship.is_collapse env (a.update e vs).x (a.update e vs).y (a.update e vs).radius = true
    · simp [h]
    · simp [h, ih]

/-- Without a collision, the loop just integrates every asteroid. -/
theorem updateAsteroids_no_collision (env : Env) (e vs : ℚ) (ship : Ship) (asts : List Asteroid)
    (h : (updateAsteroids env e vs ship asts).2 = false) :
    (updateAsteroids env e vs ship asts).1 = asts.map (Asteroid.update e vs) := by
  induction asts with
  | nil => rfl
  | cons a rest ih =>
    by_cases hc : ship.is_collapse env (a.update e vs).x (a.update e vs).y (a.update e vs).radius = true
    · simp only [updateAsteroids, hc] at h
      simp at h
    · simp only [updateAsteroids, hc] at h ⊢
      simp only [Bool.false_eq_true, if_false] at h ⊢
      simp [ih h]

/-- On a collision, the loop stops exactly at the first (in iteration order)
asteroid whose integrated position intersects the ship: asteroids up to and
including it are integrated, the rest are left untouched. -/
theorem updateAsteroids_stops_at_first (env : Env) (e vs : ℚ) (ship : Ship) (asts : List Asteroid)
    (h : (updateAsteroids env e vs ship asts).2 = true) :
    (updateAsteroids env e vs ship asts).1 =
      (asts.take (asts.findIdx
          (fun a => ship.is_collapse env (a.update e vs).x (a.update e vs).y (a.update e vs).radius) + 1)).map
          (Asteroid.update e vs) ++
        asts.drop (asts.findIdx
          (fun a => ship.is_collapse env (a.update e vs).x (a.update e vs).y (a.update e vs).radius) + 1) := by
  induction asts with
  | nil => simp [updateAsteroids] at h
  | cons a rest ih =>
    by_cases hc : ship.is_collapse env (a.update e vs).x (a.update e vs).y (a.update e vs).radius = true
    · simp [updateAsteroids, hc, List.findIdx_cons]
    · simp only [updateAsteroids, hc, Bool.false_eq_true, if_false] at h ⊢
      simp only [List.findIdx_cons, hc, cond_false]
      simp only [List.take_succ_cons, List.drop_succ_cons, List.map_cons, List.cons_append]
      have h2 : (updateAsteroids env e vs ship rest).2 = true := by simpa using h
      simp [ih h2]

/-- On a non-Escape frame, the state `Game::update` leaves behind stores the
spawn step's timer and the loop's asteroid list, whether or not the round
ended by collision. -/
theorem update_result_fields (env : Env) (inp : FrameInput) (g : Game)
    (h : inp.escapePressed = false) :
    (Game.update env inp g).1.asteroid_timer =
      (spawnStep inp.newAsteroid (inp.now - g.last_update) g.asteroid_timer g.asteroids).1 ∧
    (Game.update env inp g).1.asteroids =
      (updateAsteroids env (inp.now - g.last_update) g.ship.vertical_speed g.ship
        (cullStep env (spawnStep inp.newAsteroid (inp.now - g.last_update) g.asteroid_timer g.asteroids).2)).1 := by
  by_cases hL : (updateAsteroids env (inp.now - g.last_update) g.ship.vertical_speed g.ship
      (cullStep env (spawnStep inp.newAsteroid (inp.now - g.last_update) g.asteroid_timer g.asteroids).2)).2 = true
  · constructor <;> simp [Game.update, h, hL]
  · constructor <;> simp [Game.update, h, hL]

/-- C6: `Ship::is_collapse` is true exactly when the Euclidean distance from
the ship's bounding-circle center `(position, screen_height - SHIP_OFFSET)`
to the given center is strictly smaller than the given radius plus the
ship's radius `(SHIP_WIDTH + SHIP_HEIGHT)/4 = 75/4 = 18.75`; in particular a
ship at position `100` and a circle at `(100, screen_height - 30)` with
radius `25` collide. -/
theorem is_collapse_dist_iff :
    (∀ (env : Env) (s : Ship) (px py r : ℚ),
      s.is_collapse env px py r = true ↔
        Real.sqrt (((px - s.position : ℚ) : ℝ) ^ 2 +
            ((py - (env.screenHeight - SHIP_OFFSET) : ℚ) : ℝ) ^ 2) <
          ((r + (SHIP_WIDTH + SHIP_HEIGHT) / 4 : ℚ) : ℝ)) ∧
    ((SHIP_WIDTH + SHIP_HEIGHT) / 4 = (75 : ℚ) / 4) ∧
    (∀ env : Env, Ship.is_collapse env ⟨100, 0, 100⟩ 100 (env.screenHeight - 30) 25 = true) := by
  refine ⟨?_, by norm_num [SHIP_WIDTH, SHIP_HEIGHT], ?_⟩
  · intro env s px py r
    simp only [Ship.is_collapse, Bool.and_eq_true, decide_eq_true_eq]
    constructor
    · rintro ⟨h1, h2⟩
      have hR : (0:ℝ) < ((r + (SHIP_WIDTH + SHIP_HEIGHT) / 4 : ℚ) : ℝ) := by exact_mod_cast h1
      rw [Real.sqrt_lt' hR]
      push_cast
      exact_mod_cast h2
    · intro h
      have hR : (0:ℝ) < ((r + (SHIP_WIDTH + SHIP_HEIGHT) / 4 : ℚ) : ℝ) :=
        lt_of_le_of_lt (Real.sqrt_nonneg _) h
      have h1 : (0:ℚ) < r + (SHIP_WIDTH + SHIP_HEIGHT) / 4 := by exact_mod_cast hR
      have h2 := (Real.sqrt_lt' hR).mp h
      refine ⟨h1, ?_⟩
      push_cast at h2
      exact_mod_cast h2
  · intro env
    simp only [Ship.is_collapse, SHIP_WIDTH, SHIP_HEIGHT, SHIP_OFFSET, Bool.and_eq_true,
      decide_eq_true_eq]
    norm_num

/-- C1 counterexample: a frame whose accumulated spawn timer reaches exactly
`0.5` appends no asteroid and leaves the timer at `0.5` (the code spawns only
on strictly exceeding `0.5`). -/
theorem spawn_at_exact_half_cex :
    (Game.update ⟨800, 600⟩ ⟨1/2, false, false, false, ⟨1, 2, 3, 4, 25⟩⟩
        ⟨0, 0, ⟨400, 0, 100⟩, 0, []⟩).1.asteroids = [] ∧
    (Game.update ⟨800, 600⟩ ⟨1/2, false, false, false, ⟨1, 2, 3, 4, 25⟩⟩
        ⟨0, 0, ⟨400, 0, 100⟩, 0, []⟩).1.asteroid_timer = 1/2 := by
  norm_num [Game.update, spawnStep, cullStep, updateAsteroids, Ship.update, clampQ]

/-- C1 (amended): when the accumulated spawn timer strictly exceeds `0.5`,
exactly one new asteroid is appended and the timer is reset to exactly `0`
(not a negative value and not the overshoot remainder); at or below `0.5`
nothing spawns and the timer keeps the accumulated value; the full
`Game::update` stores exactly the spawn step's timer. -/
theorem spawn_strict_threshold :
    (∀ (newA : Asteroid) (e t : ℚ) (asts : List Asteroid),
      t + e > 1/2 → spawnStep newA e t asts = (0, asts ++ [newA])) ∧
    (∀ (newA : Asteroid) (e t : ℚ) (asts : List Asteroid),
      t + e ≤ 1/2 → spawnStep newA e t asts = (t + e, asts)) ∧
    (∀ (env : Env) (inp : FrameInput) (g : Game), inp.escapePressed = false →
      (Game.update env inp g).1.asteroid_timer =
        (spawnStep inp.newAsteroid (inp.now - g.last_update) g.asteroid_timer g.asteroids).1) := by
  refine ⟨?_, ?_, ?_⟩
  · intro newA e t asts h
    unfold spawnStep
    rw [if_pos h]
  · intro newA e t asts h
    unfold spawnStep
    rw [if_neg (not_lt.mpr h)]
  · intro env inp g h
    exact (update_result_fields env inp g h).1

/-- Witness for `spawn_strict_threshold` at concrete timer values. -/
theorem spawn_strict_threshold_witness :
    spawnStep ⟨1, 2, 3, 4, 25⟩ 1 0 [] = (0, [] ++ [⟨1, 2, 3, 4, 25⟩]) ∧
      spawnStep ⟨1, 2, 3, 4, 25⟩ 0 0 [] = (0 + 0, []) ∧
      (Game.update ⟨800, 600⟩ ⟨1, false, false, false, ⟨1, 2, 3, 4, 25⟩⟩
          ⟨0, 0, ⟨400, 0, 100⟩, 0, []⟩).1.asteroid_timer =
        (spawnStep ⟨1, 2, 3, 4, 25⟩ (1 - 0) 0 []).1 :=
  ⟨spawn_strict_threshold.1 _ 1 0 [] (by norm_num),
    spawn_strict_threshold.2.1 _ 0 0 [] (by norm_num),
    spawn_strict_threshold.2.2 ⟨800, 600⟩ ⟨1, false, false, false, ⟨1, 2, 3, 4, 25⟩⟩
      ⟨0, 0, ⟨400, 0, 100⟩, 0, []⟩ rfl⟩

/-- C2 counterexample: advancing the ship before the asteroids (as the claim
orders the steps) disagrees with `Game::update` on a concrete frame — the
code moves the asteroid with the pre-update vertical speed `100` (to
`y = 40`), the claimed order would use the post-update speed `120`
(`y = 48`). -/
theorem update_order_cex :
    ((Game.update ⟨800, 600⟩ ⟨1, false, false, false, ⟨0, 0, 0, 0, 25⟩⟩
        ⟨0, 3/5, ⟨400, 0, 100⟩, 0, [⟨400, 0, 0, 0, 25⟩]⟩).1.asteroids.map Asteroid.y = [40]) ∧
    ((Game.updateShipFirst ⟨800, 600⟩ ⟨1, false, false, false, ⟨0, 0, 0, 0, 25⟩⟩
        ⟨0, 3/5, ⟨400, 0, 100⟩, 0, [⟨400, 0, 0, 0, 25⟩]⟩).1.asteroids.map Asteroid.y = [48]) := by
  constructor <;>
    norm_num [Game.update, Game.updateShipFirst, spawnStep, cullStep, updateAsteroids,
      Asteroid.update, Asteroid.out_of_bounds, Ship.is_collapse, Ship.update, clampQ,
      SHIP_WIDTH, SHIP_HEIGHT, SHIP_OFFSET, VERTICAL_ACCELERATION, DECELERATION,
      ACCELERATION, MAX_RADIUS]

/-- C2 (amended): on every non-terminating non-Escape frame, `Game::update`
performs: spawn step, cull step, integrate each surviving asteroid with the
ship's pre-update vertical speed (asteroids are advanced before the ship),
then advance the ship, and finally set `last_update` to `now`. -/
theorem update_order (env : Env) (inp : FrameInput) (g : Game)
    (h1 : inp.escapePressed = false)
    (h2 : (Game.update env inp g).2 = none) :
    (Game.update env inp g).1 =
      Game.mk g.start_time inp.now
        (g.ship.update env inp.aDown inp.dDown (inp.now - g.last_update))
        (spawnStep inp.newAsteroid (inp.now - g.last_update) g.asteroid_timer g.asteroids).1
        ((cullStep env (spawnStep inp.newAsteroid (inp.now - g.last_update) g.asteroid_timer g.asteroids).2).map
          (Asteroid.update (inp.now - g.last_update) g.ship.vertical_speed)) := by
  by_cases hL : (updateAsteroids env (inp.now - g.last_update) g.ship.vertical_speed g.ship
      (cullStep env (spawnStep inp.newAsteroid (inp.now - g.last_update) g.asteroid_timer g.asteroids).2)).2 = true
  · simp [Game.update, h1, hL] at h2
  · have hL' : (updateAsteroids env (inp.now - g.last_update) g.ship.vertical_speed g.ship
        (cullStep env (spawnStep inp.newAsteroid (inp.now - g.last_update) g.asteroid_timer g.asteroids).2)).2 = false :=
      by simpa using hL
    simp only [Game.update, h1, Bool.false_eq_true, if_false, hL']
    rw [updateAsteroids_no_collision _ _ _ _ _ hL']

/-- Witness for `update_order` on a concrete non-terminating frame. -/
theorem update_order_witness :
    (Game.update ⟨800, 600⟩ ⟨1, false, false, false, ⟨0, 0, 0, 0, 25⟩⟩
        ⟨0, 3/5, ⟨400, 0, 100⟩, 0, []⟩).1 =
      Game.mk 0 1 (Ship.update ⟨800, 600⟩ false false (1 - 3/5) ⟨400, 0, 100⟩)
        (spawnStep ⟨0, 0, 0, 0, 25⟩ (1 - 3/5) 0 []).1
        ((cullStep ⟨800, 600⟩ (spawnStep ⟨0, 0, 0, 0, 25⟩ (1 - 3/5) 0 []).2).map
          (Asteroid.update (1 - 3/5) 100)) :=
  update_order ⟨800, 600⟩ ⟨1, false, false, false, ⟨0, 0, 0, 0, 25⟩⟩
    ⟨0, 3/5, ⟨400, 0, 100⟩, 0, []⟩ rfl
    (by norm_num [Game.update, spawnStep, cullStep, updateAsteroids])

/-- C3: on a non-Escape frame the round terminates exactly when, after this
frame's integration of the asteroids (spawned, culled, then each moved by its
own velocity plus the ship's vertical speed), some asteroid's circle
intersects the ship's bounding circle; the value returned then is the
survived time `now - start_time`; and the early-exit loop stops exactly at
the first colliding asteroid in iteration order. -/
theorem collision_ends_round :
    (∀ (env : Env) (inp : FrameInput) (g : Game), inp.escapePressed = false →
      (Game.update env inp g).2 =
        (if ((cullStep env (spawnStep inp.newAsteroid (inp.now - g.last_update) g.asteroid_timer g.asteroids).2).map
              (Asteroid.update (inp.now - g.last_update) g.ship.vertical_speed)).any
              (fun a => g.ship.is_collapse env a.x a.y a.radius) = true
          then some (inp.now - g.start_time) else none)) ∧
    (∀ (env : Env) (e vs : ℚ) (ship : Ship) (asts : List Asteroid),
      (updateAsteroids env e vs ship asts).2 = true →
      (updateAsteroids env e vs ship asts).1 =
        (asts.take (asts.findIdx
            (fun a => ship.is_collapse env (a.update e vs).x (a.update e vs).y (a.update e vs).radius) + 1)).map
            (Asteroid.update e vs) ++
          asts.drop (asts.findIdx
            (fun a => ship.is_collapse env (a.update e vs).x (a.update e vs).y (a.update e vs).radius) + 1)) := by
  constructor
  · intro env inp g h
    have hcol := updateAsteroids_collided env (inp.now - g.last_update) g.ship.vertical_speed g.ship
      (cullStep env (spawnStep inp.newAsteroid (inp.now - g.last_update) g.asteroid_timer g.asteroids).2)
    by_cases hc : ((cullStep env (spawnStep inp.newAsteroid (inp.now - g.last_update) g.asteroid_timer g.asteroids).2).map
        (Asteroid.update (inp.now - g.last_update) g.ship.vertical_speed)).any
        (fun a => g.ship.is_collapse env a.x a.y a.radius) = true
    · simp [Game.update, h, hcol, hc]
    · simp [Game.update, h, hcol, hc]
  · exact updateAsteroids_stops_at_first

/-- Witness for `collision_ends_round`: a frame whose only asteroid ends the
frame on the ship's center terminates the round with the survived time. -/
theorem collision_ends_round_witness :
    (Game.update ⟨800, 600⟩ ⟨1, false, false, false, ⟨0, 0, 0, 0, 25⟩⟩
        ⟨0, 1, ⟨100, 0, 100⟩, 0, [⟨100, 570, 0, 0, 25⟩]⟩).2 = some 1 := by
  rw [collision_ends_round.1 ⟨800, 600⟩ ⟨1, false, false, false, ⟨0, 0, 0, 0, 25⟩⟩
    ⟨0, 1, ⟨100, 0, 100⟩, 0, [⟨100, 570, 0, 0, 25⟩]⟩ rfl]
  norm_num [cullStep, spawnStep, Asteroid.update, Asteroid.out_of_bounds, Ship.is_collapse,
    SHIP_WIDTH, SHIP_HEIGHT, SHIP_OFFSET, MAX_RADIUS]

/-- C10: a single `Game::update` call appends at most one asteroid however
large the elapsed delta is, and whenever the accumulated timer exceeds the
threshold — by any amount — the stored timer is exactly `0`, the excess
being discarded. -/
theorem at_most_one_spawn_per_frame :
    (∀ (env : Env) (inp : FrameInput) (g : Game),
      (Game.update env inp g).1.asteroids.length ≤ g.asteroids.length + 1) ∧
    (∀ (env : Env) (inp : FrameInput) (g : Game), inp.escapePressed = false →
      g.asteroid_timer + (inp.now - g.last_update) > 1/2 →
      (Game.update env inp g).1.asteroid_timer = 0) := by
  constructor
  · intro env inp g
    by_cases h : inp.escapePressed = true
    · simp [Game.update, h, Nat.le_succ]
    · have h' : inp.escapePressed = false := by simpa using h
      rw [(update_result_fields env inp g h').2, updateAsteroids_length]
      calc (cullStep env (spawnStep inp.newAsteroid (inp.now - g.last_update) g.asteroid_timer g.asteroids).2).length
          ≤ (spawnStep inp.newAsteroid (inp.now - g.last_update) g.asteroid_timer g.asteroids).2.length :=
            List.length_filter_le _ _
        _ ≤ g.asteroids.length + 1 := by
            unfold spawnStep
            split
            · simp
            · simp [Nat.le_succ]
  · intro env inp g h ht
    rw [(update_result_fields env inp g h).1]
    unfold spawnStep
    rw [if_pos ht]

/-- Witness for `at_most_one_spawn_per_frame`: a frame with three spawn
periods of elapsed time still stores timer `0`, and appends at most one
asteroid. -/
theorem at_most_one_spawn_per_frame_witness :
    (Game.update ⟨800, 600⟩ ⟨2, false, false, false, ⟨1, 2, 3, 4, 25⟩⟩
        ⟨0, 0, ⟨400, 0, 100⟩, 0, []⟩).1.asteroid_timer = 0 ∧
      (Game.update ⟨800, 600⟩ ⟨2, false, false, false, ⟨1, 2, 3, 4, 25⟩⟩
          ⟨0, 0, ⟨400, 0, 100⟩, 0, []⟩).1.asteroids.length ≤ ([] : List Asteroid).length + 1 :=
  ⟨at_most_one_spawn_per_frame.2 ⟨800, 600⟩ ⟨2, false, false, false, ⟨1, 2, 3, 4, 25⟩⟩
      ⟨0, 0, ⟨400, 0, 100⟩, 0, []⟩ rfl (by norm_num),
    at_most_one_spawn_per_frame.1 ⟨800, 600⟩ ⟨2, false, false, false, ⟨1, 2, 3, 4, 25⟩⟩
      ⟨0, 0, ⟨400, 0, 100⟩, 0, []⟩⟩

end Asteroids
